import Mathlib

/-!
Verification development for the staff-in-a-box chat backend.

The repository routes inbound chat messages through keyword-based
classifiers and a session state machine (greeting, business inquiry,
lead collection) and extracts contact information with regular
expressions.  This file gives a shallow embedding of that logic:

* messages are `List Char`; the JavaScript regular expressions are
  embedded through a small backtracking matcher (`Re`, `mtry`) with
  JavaScript `String.match` semantics (leftmost match, alternatives
  tried left to right, greedy repetition with backtracking);
* the session objects of `minimal-server.js` and of the corresponding
  unnamed server variant are records, and each request handler is a
  state-transition function `Session → Session × Reply`;
* external effects (the Gemini call, Google-Sheets logging, e-mail)
  are modelled by a boolean parameter telling whether the AI call
  succeeded, respectively omitted when they cannot influence the
  session state.

String contents of canned replies are abstracted into `Reply`
constructors, one per distinct literal in the source.
-/

namespace Chat

/-- The apostrophe character, used by several source regexes. -/
def apos : Char := Char.ofNat 39

/-- JavaScript `\s` (the ECMAScript WhiteSpace and LineTerminator sets). -/
def jsSpace (c : Char) : Bool :=
  c == ' ' || c == Char.ofNat 9 || c == Char.ofNat 10 || c == Char.ofNat 11 ||
  c == Char.ofNat 12 || c == Char.ofNat 13 || c == Char.ofNat 0xa0 ||
  c == Char.ofNat 0x1680 || (0x2000 ≤ c.toNat && c.toNat ≤ 0x200a) ||
  c == Char.ofNat 0x2028 || c == Char.ofNat 0x2029 || c == Char.ofNat 0x202f ||
  c == Char.ofNat 0x205f || c == Char.ofNat 0x3000 || c == Char.ofNat 0xfeff

/-- JavaScript `String.prototype.trim`. -/
def jsTrim (s : List Char) : List Char :=
  ((s.dropWhile jsSpace).reverse.dropWhile jsSpace).reverse

/-- `message.toLowerCase()` (ASCII range, which covers every keyword list
in the source). -/
def lower (s : List Char) : List Char := s.map Char.toLower

/-- `hay.startsWith(needle)` on character lists. -/
def startsWith : List Char → List Char → Bool
  | _, [] => true
  | [], _ :: _ => false
  | c :: cs, d :: ds => c == d && startsWith cs ds

/-- JavaScript `hay.includes(needle)`: `needle` occurs contiguously in `hay`. -/
def containsSub : List Char → List Char → Bool
  | hay, needle =>
    startsWith hay needle ||
      match hay with
      | [] => false
      | _ :: rest => containsSub rest needle

/-- Number of elements of `s.split(/\s+/)` for a string with no leading
whitespace: counts the maximal runs of non-whitespace characters (the
boolean records whether we are inside such a run). -/
def tokenCountAux : List Char → Bool → Nat
  | [], _ => 0
  | c :: rest, inTok =>
    if jsSpace c then tokenCountAux rest false
    else (if inTok then 0 else 1) + tokenCountAux rest true

/-- `trimmed.split(/\s+/).length` for an already-trimmed string
(JavaScript returns `[""]`, of length 1, for the empty string). -/
def wordsCount (s : List Char) : Nat :=
  if s.isEmpty then 1 else tokenCountAux s false

/-! ### A small backtracking regex engine

Only the combinators actually used by the source's patterns are
provided; every repetition in the source applies to a single character
class, which keeps the matcher structurally recursive. -/

/-- Regular expressions: empty, character class, sequencing,
alternation (first alternative preferred), capture group, greedy
bounded repetition of a character class, and the `$` anchor. -/
inductive Re where
  | eps : Re
  | cls (p : Char → Bool) : Re
  | seq (a b : Re) : Re
  | alt (a b : Re) : Re
  | grp (i : Nat) (r : Re) : Re
  | reps (p : Char → Bool) (lo : Nat) (hi : Option Nat) : Re
  | eos : Re

/-- Capture list: group index paired with the captured characters. -/
def Caps : Type := List (Nat × List Char)

/-- Length of the maximal prefix of `s` whose characters satisfy `p`. -/
def countRun (p : Char → Bool) : List Char → Nat
  | [] => 0
  | c :: rest => if p c then countRun p rest + 1 else 0

/-- First success of `f` over a list of candidate repetition counts. -/
def firstSome {α : Type} (f : Nat → Option α) : List Nat → Option α
  | [] => none
  | n :: ns =>
    match f n with
    | some a => some a
    | none => firstSome f ns

/-- Greedy candidate counts `[top, top-1, …, lo]`. -/
def repCounts (lo top : Nat) : List Nat :=
  (List.range (top + 1 - lo)).map (fun i => top - i)

/-- Backtracking matcher in continuation-passing style: try to match
`r` at the front of `s`, calling `k` with the remaining input and the
captures accumulated so far.  Alternatives are tried left to right and
repetitions greedily, as in JavaScript. -/
def mtry {α : Type} : Re → List Char → (List Char → Caps → Option α) → Caps → Option α
  | .eps, s, k, caps => k s caps
  | .cls p, s, k, caps =>
    match s with
    | [] => none
    | c :: rest => if p c then k rest caps else none
  | .seq a b, s, k, caps => mtry a s (fun s2 c2 => mtry b s2 k c2) caps
  | .alt a b, s, k, caps =>
    match mtry a s k caps with
    | some res => some res
    | none => mtry b s k caps
  | .grp i r, s, k, caps =>
    mtry r s (fun s2 c2 => k s2 ((i, s.take (s.length - s2.length)) :: c2)) caps
  | .reps p lo hi, s, k, caps =>
    let run := countRun p s
    let top := min (hi.getD run) run
    if top < lo then none
    else firstSome (fun n => k (s.drop n) caps) (repCounts lo top)
  | .eos, s, k, caps =>
    match s with
    | [] => k s caps
    | _ :: _ => none

/-- Match `r` at the start of `s`; on success return the matched prefix
(`match[0]`) and the captures. -/
def matchHere (r : Re) (s : List Char) : Option (List Char × Caps) :=
  mtry r s (fun s2 c2 => some (s.take (s.length - s2.length), c2)) []

/-- JavaScript `s.match(r)` for an unanchored pattern: scan start
positions left to right and return the first success. -/
def reFind (r : Re) : List Char → Option (List Char × Caps)
  | [] => matchHere r []
  | c :: rest =>
    match matchHere r (c :: rest) with
    | some res => some res
    | none => reFind r rest

/-- JavaScript `r.test(s)` for a pattern anchored at `^` (and possibly
ending in `$`, encoded with `Re.eos`). -/
def reTestAnchored (r : Re) (s : List Char) : Bool :=
  (matchHere r s).isSome

/-- JavaScript `r.test(s)` for an unanchored pattern. -/
def reTest (r : Re) (s : List Char) : Bool :=
  (reFind r s).isSome

/-- A literal character. -/
def chr (c : Char) : Re := .cls (fun x => x == c)

/-- A case-insensitive literal character (for patterns with the `i` flag). -/
def lchr (c : Char) : Re := .cls (fun x => x.toLower == c.toLower)

/-- Greedy `?`. -/
def ropt (r : Re) : Re := .alt r .eps

/-- A case-insensitive literal string. -/
def istr (s : String) : Re :=
  s.toList.foldr (fun c acc => .seq (lchr c) acc) .eps

/-! ### The regular expressions of `extractLeadInfo` and of the
validation helpers, transcribed from the source. -/

/-- The local-part class `[a-zA-Z0-9._%+-]` of the email regex. -/
def emailLocalCls (c : Char) : Bool :=
  c.isAlpha || c.isDigit || c == '.' || c == '_' || c == '%' || c == '+' || c == '-'

/-- The domain class `[a-zA-Z0-9.-]` of the email regex. -/
def emailDomCls (c : Char) : Bool :=
  c.isAlpha || c.isDigit || c == '.' || c == '-'

/-- `/[a-zA-Z0-9._%+-]+@[a-zA-Z0-9.-]+\.[a-zA-Z]{2,}/`. -/
def emailRe : Re :=
  .seq (.reps emailLocalCls 1 none)
    (.seq (chr '@')
      (.seq (.reps emailDomCls 1 none)
        (.seq (chr '.') (.reps Char.isAlpha 2 none))))

/-- The separator class `[-.\s]` of the phone regex. -/
def phoneSepCls (c : Char) : Bool := c == '-' || c == '.' || jsSpace c

/-- `/(\+?1?[-.\s]?)?\(?([0-9]{3})\)?[-.\s]?([0-9]{3})[-.\s]?([0-9]{4})/`
(captures other than `match[0]` are unused by the source, so the inner
groups are not marked). -/
def phoneRe : Re :=
  .seq (ropt (.seq (ropt (chr '+')) (.seq (ropt (chr '1')) (ropt (.cls phoneSepCls)))))
    (.seq (ropt (chr '('))
      (.seq (.reps Char.isDigit 3 (some 3))
        (.seq (ropt (chr ')'))
          (.seq (ropt (.cls phoneSepCls))
            (.seq (.reps Char.isDigit 3 (some 3))
              (.seq (ropt (.cls phoneSepCls)) (.reps Char.isDigit 4 (some 4))))))))

/-- The name-capture class `[a-zA-Z\s]`. -/
def nameCls (c : Char) : Bool := c.isAlpha || jsSpace c

/-- The shared tail `\s+([a-zA-Z\s]{2,30})(?:\s+and|,|$)` of the three
name patterns (group 1 is the captured name). -/
def nameTail : Re :=
  .seq (.reps jsSpace 1 none)
    (.seq (.grp 1 (.reps nameCls 2 (some 30)))
      (.alt (.seq (.reps jsSpace 1 none) (istr "and"))
        (.alt (chr ',') .eos)))

/-- `i'm` under the `i` flag (literal apostrophe between the letters). -/
def imLit : Re := .seq (lchr 'i') (.seq (chr apos) (lchr 'm'))

/-- `it'?s` under the `i` flag. -/
def itsLit : Re := .seq (lchr 'i') (.seq (lchr 't') (.seq (ropt (chr apos)) (lchr 's')))

/-- `/(?:my name is|i'm|i am|call me)\s+([a-zA-Z\s]{2,30})(?:\s+and|,|$)/i`. -/
def namePat1 : Re :=
  .seq (.alt (istr "my name is") (.alt imLit (.alt (istr "i am") (istr "call me")))) nameTail

/-- `/(?:it'?s|this is)\s+([a-zA-Z\s]{2,30})(?:\s+and|,|$)/i`. -/
def namePat2 : Re := .seq (.alt itsLit (istr "this is")) nameTail

/-- `/(?:my nae is|my nam is)\s+([a-zA-Z\s]{2,30})(?:\s+and|,|$)/i`
(the source's typo-tolerant variants). -/
def namePat3 : Re := .seq (.alt (istr "my nae is") (istr "my nam is")) nameTail

/-- Contents of capture group 1 (`nameMatch[1]`); the group always
participates in a successful match of the name patterns. -/
def cap1 (caps : Caps) : List Char :=
  ((caps.find? (fun p => p.1 == 1)).map Prod.snd).getD []

/-- The `for (const pattern of namePatterns)` loop: first pattern that
matches wins, yielding its group 1. -/
def firstNameMatch (message : List Char) : Option (List Char) :=
  match reFind namePat1 message with
  | some (_, caps) => some (cap1 caps)
  | none =>
    match reFind namePat2 message with
    | some (_, caps) => some (cap1 caps)
    | none =>
      match reFind namePat3 message with
      | some (_, caps) => some (cap1 caps)
      | none => none

/-- `/^[a-zA-Z\s]+$/` (used on comma-prefix and standalone name candidates). -/
def nameLineRe : Re := .seq (.reps nameCls 1 none) .eos

/-- `/^\d+$/` (the purely-numeric test of `validateName`). -/
def digitLineRe : Re := .seq (.reps Char.isDigit 1 none) .eos

/-- The class `[\d\s\-\(\)\+]` of `validatePhone`. -/
def phoneValidCls (c : Char) : Bool :=
  c.isDigit || jsSpace c || c == '-' || c == '(' || c == ')' || c == '+'

/-- `/[\d\s\-\(\)\+]{10,}/` (`validatePhone`, unanchored). -/
def phoneValidRe : Re := .reps phoneValidCls 10 none

/-- The class `[^\s@]` of `validateEmail`. -/
def emailValidCls (c : Char) : Bool := !jsSpace c && !(c == '@')

/-- `/^[^\s@]+@[^\s@]+\.[^\s@]+$/` (`validateEmail`). -/
def emailValidRe : Re :=
  .seq (.reps emailValidCls 1 none)
    (.seq (chr '@')
      (.seq (.reps emailValidCls 1 none)
        (.seq (chr '.') (.seq (.reps emailValidCls 1 none) .eos))))

/-! ### `extractLeadInfo` (identical in `minimal-server.js` and the
unnamed server variant) -/

/-- The record built by `extractLeadInfo`: fields are present exactly
when the corresponding key was assigned. -/
structure ExtractResult where
  hasContact : Bool := false
  name : Option (List Char) := none
  email : Option (List Char) := none
  phone : Option (List Char) := none
  deriving DecidableEq

/-- JavaScript truthiness of an optional string field: present and
non-empty. -/
def otruthy (o : Option (List Char)) : Bool :=
  match o with
  | some s => !s.isEmpty
  | none => false

/-- The stoplist of the standalone-name heuristic. -/
def stopWords : List (List Char) :=
  ["ok".toList, "yes".toList, "no".toList, "sure".toList,
   "thanks".toList, "hello".toList, "hi".toList, "hey".toList]

/-- The `"Name, email@domain.com"` fallback: if the message contains a
comma, the trimmed text before the first comma becomes the name when it
is 2–30 characters of letters/spaces. -/
def commaNameFallback (message : List Char) (r : ExtractResult) : ExtractResult :=
  if message.contains ',' then
    let potentialName := jsTrim (message.takeWhile (fun c => !(c == ',')))
    if 2 ≤ potentialName.length && potentialName.length ≤ 30 &&
        reTestAnchored nameLineRe potentialName then
      { r with name := some potentialName }
    else r
  else r

/-- The standalone-name fallback: a trimmed message of 1–3 words, 2–30
characters, letters/spaces only and not a stopword becomes the name. -/
def standaloneNameFallback (message : List Char) (r : ExtractResult) : ExtractResult :=
  let trimmed := jsTrim message
  let words := wordsCount trimmed
  if (1 ≤ words && words ≤ 3) && (2 ≤ trimmed.length && trimmed.length ≤ 30) &&
      reTestAnchored nameLineRe trimmed && !(stopWords.contains (lower trimmed)) then
    { r with name := some trimmed, hasContact := true }
  else r

/-- `extractLeadInfo(message)`: email and phone by first regex match,
name by the ordered pattern list, then the comma fallback (email found
but no truthy name) and the standalone fallback (nothing matched). -/
def extractLeadInfo (message : List Char) : ExtractResult :=
  let email := reFind emailRe message
  let phone := reFind phoneRe message
  let r0 : ExtractResult := { hasContact := false }
  let r1 :=
    match email with
    | some e => { r0 with email := some e.1, hasContact := true }
    | none => r0
  let r2 :=
    match phone with
    | some p => { r1 with phone := some p.1, hasContact := true }
    | none => r1
  let r3 :=
    match firstNameMatch message with
    | some n => { r2 with name := some (jsTrim n), hasContact := true }
    | none => r2
  let r4 :=
    if email.isSome && !(otruthy r3.name) then commaNameFallback message r3 else r3
  if !(otruthy r4.name) && email.isNone && phone.isNone then
    standaloneNameFallback message r4
  else r4

/-! ### Session state, session store and the object-spread merge -/

/-- `session.leadInfo`: a plain object accumulating extracted fields.
The `hasContact` key is present because the spread merge copies the
extractor's `hasContact` flag into the object. -/
structure LeadInfo where
  name : Option (List Char) := none
  email : Option (List Char) := none
  phone : Option (List Char) := none
  inquiry : Option (List Char) := none
  hasContact : Option Bool := none
  deriving DecidableEq

/-- `session.leadInfo = { ...session.leadInfo, ...leadData }`: every key
present in `leadData` overwrites the stored value, absent keys are kept,
and `leadData.hasContact` (always present) is copied in. -/
def mergeLead (li : LeadInfo) (r : ExtractResult) : LeadInfo :=
  { name := match r.name with | some v => some v | none => li.name
    email := match r.email with | some v => some v | none => li.email
    phone := match r.phone with | some v => some v | none => li.phone
    inquiry := li.inquiry
    hasContact := some r.hasContact }

/-- A conversation session as stored in the in-memory `Map`
(`consecutiveNonBusiness` is created lazily by the fallback responder;
`undefined` and `0` behave identically, so it is a `Nat` here). -/
structure Session where
  id : List Char
  hasGreeted : Bool := false
  hasMadeBusinessInquiry : Bool := false
  leadCollected : Bool := false
  messages : List (List Char) := []
  leadInfo : LeadInfo := {}
  consecutiveNonBusiness : Nat := 0
  deriving DecidableEq

/-- The fresh session object created by `getSession` for an unseen id. -/
def initSession (sessionId : List Char) : Session :=
  { id := sessionId }

/-- The in-memory `sessions` map, in insertion order. -/
abbrev Store : Type := List (List Char × Session)

/-- `sessions.get(id)`. -/
def storeGet (st : Store) (k : List Char) : Option Session :=
  (st.find? (fun p => p.1 == k)).map Prod.snd

/-- `sessions.set(id, s)`: replace in place, or append for a new key. -/
def storeSet : Store → List Char → Session → Store
  | [], k, s => [(k, s)]
  | (k0, s0) :: rest, k, s =>
    if k0 == k then (k, s) :: rest else (k0, s0) :: storeSet rest k s

/-- `getSession(sessionId)`: create the session if absent, then return
the stored one, together with the resulting map. -/
def getSession (st : Store) (sessionId : List Char) : Session × Store :=
  match storeGet st sessionId with
  | some s => (s, st)
  | none => (initSession sessionId, st ++ [(sessionId, initSession sessionId)])

/-! ### Replies and the shared part of the chat handler -/

/-- One constructor per distinct reply literal of the two server
variants (the literal text does not influence the session state). -/
inductive Reply where
  | fixedGreeting
  | aiReply
  | thanksCollected (name : List Char)
  | thanksNameAskContact (name : List Char)
  | haveEmailAskName
  | havePhoneAskName
  | askMissing (needName needContact : Bool)
  | redirectTier1
  | redirectTier2
  | redirectTier3
  | quoteAskContact
  | urgentAskContact
  | genericAskContact
  | priceInfo
  | urgentInfo
  | thanksForReachingOut
  | askWhatHelp
  | salonPitch
  | restaurantPitch
  | businessPitch
  | hiName (name : List Char)
  | simplePitch
  | ecommercePitch
  | needPitch
  | hereToHelp
  deriving DecidableEq

/-- The lead-extraction branch of the chat endpoint, identical in
`minimal-server.js` and the unnamed server variant: merge the
extraction into `leadInfo`, mark the lead collected when a name plus an
email or phone are now on file, otherwise ask for what is missing
(four phrasings depending on what the current message contributed). -/
def extractBranch (leadData : ExtractResult) (s : Session) : Session × Reply :=
  let li := mergeLead s.leadInfo leadData
  let s1 := { s with leadInfo := li }
  if otruthy li.name && (otruthy li.email || otruthy li.phone) then
    ({ s1 with leadCollected := true }, .thanksCollected (li.name.getD []))
  else
    let needName := !(otruthy li.name)
    let needContact := !(otruthy li.email) && !(otruthy li.phone)
    if otruthy leadData.name && !(otruthy leadData.email) && !(otruthy leadData.phone) then
      (s1, .thanksNameAskContact (leadData.name.getD []))
    else if otruthy leadData.email && !(otruthy leadData.name) then
      (s1, .haveEmailAskName)
    else if otruthy leadData.phone && !(otruthy leadData.name) then
      (s1, .havePhoneAskName)
    else
      (s1, .askMissing needName needContact)

/-- The parsed request body of `POST /api/agents/chat`. -/
structure ChatBody where
  message : Option (List Char) := none
  sessionId : Option (List Char) := none

/-- The HTTP outcome of the chat endpoint. -/
inductive HttpOut where
  | badRequest
  | ok (r : Reply)
  deriving DecidableEq

/-- A syntactic lower bound on the number of characters a pattern
consumes. -/
def minConsume : Re → Nat
  | .eps => 0
  | .cls _ => 1
  | .seq a b => minConsume a + minConsume b
  | .alt a b => min (minConsume a) (minConsume b)
  | .grp _ r => minConsume r
  | .reps _ lo _ => lo
  | .eos => 0

/-- The lead-collection invariant: a non-empty name together with a
non-empty email or phone. -/
def goodLead (li : LeadInfo) : Prop :=
  otruthy li.name = true ∧ (otruthy li.email = true ∨ otruthy li.phone = true)

end Chat

/-! ## `minimal-server.js` -/

namespace Minimal

open Chat

/-- The greeting keyword list. -/
def greetings : List (List Char) :=
  ["hi", "hello", "hey", "good morning", "good afternoon", "good evening"].map String.toList

/-- `isGreeting(message)`. -/
def isGreeting (message : List Char) : Bool :=
  greetings.any (fun g => containsSub (lower message) g)

/-- The business keyword list of `minimal-server.js`. -/
def businessKeywords : List (List Char) :=
  ["website", "price", "cost", "quote", "project", "development", "design",
   "ecommerce", "business", "site"].map String.toList

/-- `isBusinessInquiry(message)`. -/
def isBusinessInquiry (message : List Char) : Bool :=
  businessKeywords.any (fun k => containsSub (lower message) k)

/-- The lead-trigger keyword list. -/
def leadTriggers : List (List Char) :=
  ["price", "cost", "quote", "how much", "pricing", "urgent", "asap",
   "project", "build", "need"].map String.toList

/-- `shouldCollectLead(message)`. -/
def shouldCollectLead (message : List Char) : Bool :=
  leadTriggers.any (fun t => containsSub (lower message) t)

/-- The spam-indicator list of `minimal-server.js`. -/
def spamIndicators : List (List Char) :=
  ["you are human", "are you a bot", "what time is it", "i like you",
   "what you do"].map String.toList

/-- `isSpammy` of `getStateAwareFallbackResponse`. -/
def isSpammy (message : List Char) : Bool :=
  spamIndicators.any (fun i => containsSub (lower message) i)

/-- The lead-collection and standard-fallback tail of
`getStateAwareFallbackResponse` (runs after the spam branch and the
counter reset). -/
def fbCollect (message : List Char) (s1 : Session) : Session × Reply :=
  let lowerMessage := lower message
  if s1.hasMadeBusinessInquiry && !s1.leadCollected && shouldCollectLead message then
    if containsSub lowerMessage "price".toList || containsSub lowerMessage "cost".toList ||
        containsSub lowerMessage "how much".toList then
      (s1, .quoteAskContact)
    else if containsSub lowerMessage "urgent".toList then (s1, .urgentAskContact)
    else (s1, .genericAskContact)
  else if containsSub lowerMessage "price".toList || containsSub lowerMessage "cost".toList ||
      containsSub lowerMessage "how much".toList then
    (s1, .priceInfo)
  else if containsSub lowerMessage "urgent".toList then (s1, .urgentInfo)
  else (s1, .thanksForReachingOut)

/-- `getStateAwareFallbackResponse(message, session)`: the deterministic
responder used when the AI call fails — the spam/consecutive branch
with the three escalating redirects, then the counter reset on a
business message, then `fbCollect`. -/
def getStateAwareFallbackResponse (message : List Char) (session : Session) :
    Session × Reply :=
  if isSpammy message || (!isBusinessInquiry message && session.consecutiveNonBusiness ≥ 2) then
    let c := session.consecutiveNonBusiness + 1
    let s1 := { session with consecutiveNonBusiness := c }
    if c ≥ 4 then (s1, .redirectTier3)
    else if c ≥ 3 then (s1, .redirectTier2)
    else (s1, .redirectTier1)
  else
    let s1 :=
      if isBusinessInquiry message then { session with consecutiveNonBusiness := 0 }
      else session
    fbCollect message s1

/-- The chat handler after the lead-extraction branch: greeting check,
business-inquiry flagging, then the AI call (`ai` tells whether it
succeeded) with the deterministic fallback on failure. -/
def afterExtract (ai : Bool) (message : List Char) (s : Session) : Session × Reply :=
  if !s.hasGreeted && isGreeting message then
    ({ s with hasGreeted := true }, .fixedGreeting)
  else
    let s1 :=
      if s.hasGreeted && !s.hasMadeBusinessInquiry && isBusinessInquiry message then
        { s with hasMadeBusinessInquiry := true,
                 leadInfo := { s.leadInfo with inquiry := some message } }
      else s
    if ai then (s1, .aiReply)
    else getStateAwareFallbackResponse message s1

/-- One turn of the `POST /api/agents/chat` handler on a session. -/
def chatStep (ai : Bool) (message : List Char) (s0 : Session) : Session × Reply :=
  let s := { s0 with messages := s0.messages ++ [message] }
  if s.hasMadeBusinessInquiry && !s.leadCollected then
    let leadData := extractLeadInfo message
    if leadData.hasContact then extractBranch leadData s
    else afterExtract ai message s
  else afterExtract ai message s

/-- The full endpoint: reject a missing (or empty, which is equally
falsy) message with a 400 before any session access. -/
def handleChat (ai : Bool) (body : ChatBody) (st : Store) : Store × HttpOut :=
  let sessionId := body.sessionId.getD "default".toList
  match body.message with
  | none => (st, .badRequest)
  | some m =>
    if m.isEmpty then (st, .badRequest)
    else
      let (session, st1) := getSession st sessionId
      let (s2, reply) := chatStep ai m session
      (storeSet st1 sessionId s2, .ok reply)

/-- Process a sequence of (AI outcome, message) turns on one session. -/
def runChat : List (Bool × List Char) → Session → Session
  | [], s => s
  | (ai, m) :: rest, s => runChat rest (chatStep ai m s).1

end Minimal

/-! ## The unnamed server variant (first server of `unnamed/part_003`),
whose AI-failure fallback is `getIntelligentFallback` -/

namespace P3

open Chat

/-- The greeting keyword list (same as `minimal-server.js`). -/
def greetings : List (List Char) :=
  ["hi", "hello", "hey", "good morning", "good afternoon", "good evening"].map String.toList

/-- `isGreeting(message)`. -/
def isGreeting (message : List Char) : Bool :=
  greetings.any (fun g => containsSub (lower message) g)

/-- The broader business keyword list of this variant. -/
def businessKeywords : List (List Char) :=
  ["website", "site", "web", "page", "homepage", "landing",
   "price", "cost", "quote", "pricing", "how much", "budget",
   "project", "development", "design", "build", "create", "make",
   "ecommerce", "e-commerce", "store", "shop", "business",
   "simple", "basic", "complex", "custom", "professional",
   "need", "want", "looking for", "require", "help with"].map String.toList

/-- `isBusinessInquiry(message)`. -/
def isBusinessInquiry (message : List Char) : Bool :=
  businessKeywords.any (fun k => containsSub (lower message) k)

/-- The lead-trigger keyword list (same as `minimal-server.js`). -/
def leadTriggers : List (List Char) :=
  ["price", "cost", "quote", "how much", "pricing", "urgent", "asap",
   "project", "build", "need"].map String.toList

/-- `shouldCollectLead(message)`. -/
def shouldCollectLead (message : List Char) : Bool :=
  leadTriggers.any (fun t => containsSub (lower message) t)

/-- The spam-indicator list of this variant. -/
def spamIndicators : List (List Char) :=
  ["you are human", "are you a bot", "what time is it", "i like you",
   "what you do", "what is your name"].map String.toList

/-- The business-type words that suppress standalone-name handling. -/
def businessTypes : List (List Char) :=
  ["salon", "restaurant", "store", "shop", "business", "website"].map String.toList

/-- The business-inquiry flagging block of `getIntelligentFallback`
and the standard fallbacks it falls through to when no sub-branch
matches. -/
def fbBiz (message : List Char) (s1 : Session) : Session × Reply :=
  let lowerMessage := lower message
  let s2 :=
    if isBusinessInquiry message then
      { s1 with hasMadeBusinessInquiry := true,
                leadInfo := { s1.leadInfo with inquiry := some message } }
    else s1
  if isBusinessInquiry message &&
      (containsSub lowerMessage "simple".toList ||
       containsSub lowerMessage "basic".toList) then
    (s2, .simplePitch)
  else if isBusinessInquiry message &&
      (containsSub lowerMessage "ecommerce".toList ||
       containsSub lowerMessage "store".toList ||
       containsSub lowerMessage "shop".toList) then
    (s2, .ecommercePitch)
  else if isBusinessInquiry message &&
      (containsSub lowerMessage "need".toList ||
       containsSub lowerMessage "want".toList ||
       containsSub lowerMessage "looking for".toList) then
    (s2, .needPitch)
  else if containsSub lowerMessage "price".toList ||
      containsSub lowerMessage "cost".toList ||
      containsSub lowerMessage "how much".toList then
    (s2, .priceInfo)
  else if containsSub lowerMessage "urgent".toList then (s2, .urgentInfo)
  else (s2, .hereToHelp)

/-- The lead-collection block of `getIntelligentFallback`, falling
through to `fbBiz`. -/
def fbCollect (message : List Char) (s1 : Session) : Session × Reply :=
  let lowerMessage := lower message
  if s1.hasMadeBusinessInquiry && !s1.leadCollected && shouldCollectLead message then
    if containsSub lowerMessage "price".toList ||
        containsSub lowerMessage "cost".toList ||
        containsSub lowerMessage "how much".toList then
      (s1, .quoteAskContact)
    else if containsSub lowerMessage "urgent".toList then (s1, .urgentAskContact)
    else (s1, .genericAskContact)
  else fbBiz message s1

/-- `isSpammy` of `getIntelligentFallback`. -/
def isSpammy (message : List Char) : Bool :=
  spamIndicators.any (fun i => containsSub (lower message) i)

/-- The spam/consecutive-counter block of `getIntelligentFallback`:
increment and pick an escalating redirect, or reset the counter for a
business message and continue with `fbCollect`. -/
def fbSpam (message : List Char) (session : Session) : Session × Reply :=
  if isSpammy message ||
      (!isBusinessInquiry message && session.consecutiveNonBusiness ≥ 2) then
    let c := session.consecutiveNonBusiness + 1
    let s1 := { session with consecutiveNonBusiness := c }
    if c ≥ 4 then (s1, .redirectTier3)
    else if c ≥ 3 then (s1, .redirectTier2)
    else (s1, .redirectTier1)
  else
    let s1 :=
      if isBusinessInquiry message then { session with consecutiveNonBusiness := 0 }
      else session
    fbCollect message s1

/-- `getIntelligentFallback(message, session)`: the deterministic
responder used when the AI call fails.  Unlike the `minimal-server.js`
fallback it recognises business types, merges standalone name
extractions into `session.leadInfo`, and flags business inquiries; the
spam/collection/business tail is in `fbSpam`, `fbCollect`, `fbBiz`. -/
def getIntelligentFallback (message : List Char) (session : Session) :
    Session × Reply :=
  let lowerMessage := lower message
  if session.hasGreeted && isGreeting message then (session, .askWhatHelp)
  else if lowerMessage == "salon".toList || containsSub lowerMessage "salon".toList then
    ({ session with hasMadeBusinessInquiry := true,
                    leadInfo := { session.leadInfo with inquiry := some message } },
     .salonPitch)
  else
    let isBusinessType := businessTypes.any (fun t => containsSub lowerMessage t)
    let leadData := extractLeadInfo message
    if !isBusinessType && leadData.hasContact && otruthy leadData.name then
      ({ session with leadInfo := mergeLead session.leadInfo leadData },
       .hiName (leadData.name.getD []))
    else if lowerMessage == "restaurant".toList ||
        containsSub lowerMessage "restaurant".toList then
      ({ session with hasMadeBusinessInquiry := true,
                      leadInfo := { session.leadInfo with inquiry := some message } },
       .restaurantPitch)
    else if lowerMessage == "business".toList ||
        containsSub lowerMessage "business website".toList then
      ({ session with hasMadeBusinessInquiry := true,
                      leadInfo := { session.leadInfo with inquiry := some message } },
       .businessPitch)
    else fbSpam message session

/-- The chat handler after the lead-extraction branch.  This variant
re-checks `isBusinessInquiry` after a successful AI call (without the
`hasGreeted` guard of the pre-AI check). -/
def afterExtract (ai : Bool) (message : List Char) (s : Session) : Session × Reply :=
  if !s.hasGreeted && isGreeting message then
    ({ s with hasGreeted := true }, .fixedGreeting)
  else
    let s1 :=
      if s.hasGreeted && !s.hasMadeBusinessInquiry && isBusinessInquiry message then
        { s with hasMadeBusinessInquiry := true,
                 leadInfo := { s.leadInfo with inquiry := some message } }
      else s
    if ai then
      let s2 :=
        if isBusinessInquiry message && !s1.hasMadeBusinessInquiry then
          { s1 with hasMadeBusinessInquiry := true,
                    leadInfo := { s1.leadInfo with inquiry := some message } }
        else s1
      (s2, .aiReply)
    else getIntelligentFallback message s1

/-- One turn of the `POST /api/agents/chat` handler on a session. -/
def chatStep (ai : Bool) (message : List Char) (s0 : Session) : Session × Reply :=
  let s := { s0 with messages := s0.messages ++ [message] }
  if s.hasMadeBusinessInquiry && !s.leadCollected then
    let leadData := extractLeadInfo message
    if leadData.hasContact then extractBranch leadData s
    else afterExtract ai message s
  else afterExtract ai message s

/-- The full endpoint: reject a missing (falsy) message with a 400
before any session access. -/
def handleChat (ai : Bool) (body : ChatBody) (st : Store) : Store × HttpOut :=
  let sessionId := body.sessionId.getD "default".toList
  match body.message with
  | none => (st, .badRequest)
  | some m =>
    if m.isEmpty then (st, .badRequest)
    else
      let (session, st1) := getSession st sessionId
      let (s2, reply) := chatStep ai m session
      (storeSet st1 sessionId s2, .ok reply)

/-- Process a sequence of (AI outcome, message) turns on one session. -/
def runChat : List (Bool × List Char) → Session → Session
  | [], s => s
  | (ai, m) :: rest, s => runChat rest (chatStep ai m s).1

end P3

/-! ## `ReceptionistAgent` (first copy in `src/agents/SalesAgent.js`) -/

namespace Recep

open Chat

/-- The escalation trigger phrases (matched against the lowercased
message; note that `API integration` contains capitals and therefore
can never match a lowercased message). -/
def escalationTriggers : List (List Char) :=
  ["changes to my existing site", "modify my current", "update my website",
   "add to my site", "crypto payment", "payment gateway",
   "specific functionality", "custom feature", "how would you implement",
   "what technology", "database structure", "API integration"].map String.toList

/-- The inquiry categories of `classifyInquiry` plus `escalation`. -/
inductive InquiryType where
  | escalation
  | pricing
  | services
  | timeline
  | contact_info
  | urgency_assessment
  | general
  deriving DecidableEq

/-- The keyword `i'm` of the `contact_info` pattern list. -/
def imKw : List Char := 'i' :: apos :: ['m']

/-- The pattern table of `classifyInquiry`, in object-entry order. -/
def pricingKws : List (List Char) :=
  ["cost", "price", "budget", "how much", "rate", "hourly"].map String.toList

/-- The `services` keywords. -/
def servicesKws : List (List Char) :=
  ["do you do", "can you", "services", "what do you offer"].map String.toList

/-- The `timeline` keywords. -/
def timelineKws : List (List Char) :=
  ["how long", "when", "timeline", "deadline"].map String.toList

/-- The `contact_info` keywords. -/
def contactInfoKws : List (List Char) :=
  ["my name is".toList, imKw, "call me".toList, "email me".toList]

/-- The `urgency_assessment` keywords. -/
def urgencyKws : List (List Char) :=
  ["right now", "immediately", "later", "callback"].map String.toList

/-- `classifyInquiry(message)` on an already-lowercased message: first
matching entry of the pattern table wins. -/
def classifyInquiry (message : List Char) : InquiryType :=
  if pricingKws.any (fun k => containsSub message k) then .pricing
  else if servicesKws.any (fun k => containsSub message k) then .services
  else if timelineKws.any (fun k => containsSub message k) then .timeline
  else if contactInfoKws.any (fun k => containsSub message k) then .contact_info
  else if urgencyKws.any (fun k => containsSub message k) then .urgency_assessment
  else .general

/-- The project types of `identifyProjectType`. -/
inductive ProjectType where
  | one_page
  | ecommerce
  | redesign
  | new_website
  | unknown
  deriving DecidableEq

/-- `identifyProjectType(message)` on an already-lowercased message. -/
def identifyProjectType (message : List Char) : ProjectType :=
  if ["one page", "single page", "landing page", "simple site"].map String.toList
      |>.any (fun k => containsSub message k) then .one_page
  else if ["online store", "e-commerce", "sell products", "shopping cart"].map String.toList
      |>.any (fun k => containsSub message k) then .ecommerce
  else if ["redesign", "rebuild", "complete overhaul", "start over"].map String.toList
      |>.any (fun k => containsSub message k) then .redesign
  else if ["new website", "build a site", "create a website", "from scratch"].map String.toList
      |>.any (fun k => containsSub message k) then .new_website
  else .unknown

/-- The result of `BaseAgent.assessUrgency`. -/
inductive Urgency where
  | high
  | medium
  deriving DecidableEq

/-- `BaseAgent.assessUrgency(message)` (inherited by the receptionist). -/
def assessUrgency (message : List Char) : Urgency :=
  let kws := ["urgent", "asap", "emergency", "immediate", "now", "help"].map String.toList
  if kws.any (fun k => containsSub (lower message) k) then .high else .medium

/-- The conversation record fields read by the receptionist. -/
structure Conversation where
  customer_name : Option (List Char) := none
  contactCollectionStage : Option (List Char) := none
  deriving DecidableEq

/-- `requiresContactInfo(inquiryType, conversation)`. -/
def requiresContactInfo (inquiryType : InquiryType) (conversation : Conversation) : Bool :=
  ([InquiryType.escalation, .pricing, .services].contains inquiryType) &&
    !(otruthy conversation.customer_name)

/-- The `escalationReason` literal. -/
inductive EscReason where
  | specific_modification_request
  deriving DecidableEq

/-- The record returned by `analyzeMessage` (keys absent from one of the
two return objects are `Option`s). -/
structure Analysis where
  requiresEscalation : Bool
  inquiryType : InquiryType
  needsContactInfo : Bool
  escalationReason : Option EscReason := none
  projectType : Option ProjectType := none
  urgencyLevel : Option Urgency := none
  deriving DecidableEq

/-- `analyzeMessage(message, conversation)`: any escalation trigger in
the lowercased message short-circuits to an escalation analysis before
any other classification. -/
def analyzeMessage (message : List Char) (conversation : Conversation) : Analysis :=
  let lowerMessage := lower message
  match escalationTriggers.find? (fun t => containsSub lowerMessage t) with
  | some _ =>
    { requiresEscalation := true
      escalationReason := some .specific_modification_request
      needsContactInfo := true
      inquiryType := .escalation }
  | none =>
    let inquiryType := classifyInquiry lowerMessage
    let needsContactInfo := requiresContactInfo inquiryType conversation
    { requiresEscalation := false
      inquiryType := inquiryType
      needsContactInfo := needsContactInfo
      projectType := some (identifyProjectType lowerMessage)
      urgencyLevel := some (assessUrgency lowerMessage) }

/-- `validateName(input)`: truthy input, trimmed length above 1 and not
matching `/^\d+$/` (the digit test runs on the untrimmed input). -/
def validateName (input : List Char) : Bool :=
  !input.isEmpty && (jsTrim input).length > 1 && !(reTestAnchored digitLineRe input)

/-- `validatePhone(input)`. -/
def validatePhone (input : List Char) : Bool :=
  reTest phoneValidRe input

/-- `validateEmail(input)`. -/
def validateEmail (input : List Char) : Bool :=
  reTestAnchored emailValidRe input

/-- The contact-collection stages. -/
inductive CStage where
  | collect_name
  | collect_phone
  | collect_email
  deriving DecidableEq

/-- The `action` field of a contact-collection result. -/
inductive CAction where
  | collect_contact_info
  | assess_urgency
  deriving DecidableEq

/-- The reply literals of `handleContactCollection`. -/
inductive CMessage where
  | thankYouAskPhone (name : List Char)
  | didntCatchName
  | gotItAskEmail
  | doubleCheckPhone
  | perfectHaveInfo
  | checkEmail
  deriving DecidableEq

/-- The `leadQuality` literals. -/
inductive LeadQuality where
  | hot
  | warm
  | cold
  deriving DecidableEq

/-- The record returned by `handleContactCollection` (the database
write of the validated value is recorded in `contactData`). -/
structure CResult where
  message : CMessage
  action : CAction
  nextStep : Option CStage := none
  retry : Bool := false
  contactComplete : Bool := false
  contactData : Option (List Char) := none
  leadQuality : Option LeadQuality := none
  deriving DecidableEq

/-- Decode the stage string `conversation.contactCollectionStage`,
defaulting to `collect_name` as in `stage || 'collect_name'`. -/
def decodeStage (o : Option (List Char)) : Option CStage :=
  match o with
  | none => some .collect_name
  | some st =>
    if st == "collect_name".toList then some .collect_name
    else if st == "collect_phone".toList then some .collect_phone
    else if st == "collect_email".toList then some .collect_email
    else none

/-- `handleContactCollection(message, conversation)`: validate the
stage's field; on success store it and advance, on failure re-ask the
same question with the same `nextStep` (the JavaScript `switch` has no
branch for an unknown stage string, hence the outer `Option`). -/
def handleContactCollection (message : List Char) (conversation : Conversation) :
    Option CResult :=
  match decodeStage conversation.contactCollectionStage with
  | none => none
  | some .collect_name =>
    if validateName message then
      some { message := .thankYouAskPhone (jsTrim message)
             action := .collect_contact_info
             nextStep := some .collect_phone
             contactData := some (jsTrim message) }
    else
      some { message := .didntCatchName
             action := .collect_contact_info
             nextStep := some .collect_name
             retry := true }
  | some .collect_phone =>
    if validatePhone message then
      some { message := .gotItAskEmail
             action := .collect_contact_info
             nextStep := some .collect_email
             contactData := some (jsTrim message) }
    else
      some { message := .doubleCheckPhone
             action := .collect_contact_info
             nextStep := some .collect_phone
             retry := true }
  | some .collect_email =>
    if validateEmail message then
      some { message := .perfectHaveInfo
             action := .assess_urgency
             contactComplete := true
             contactData := some (jsTrim message)
             leadQuality := some .warm }
    else
      some { message := .checkEmail
             action := .collect_contact_info
             nextStep := some .collect_email
             retry := true }

end Recep

/-! ## `SalesAgent` (analysis-only) -/

namespace Sales

open Chat

/-- The budget-indicator keywords (+20). -/
def budgetSignals : List (List Char) :=
  ["budget", "investment", "approved", "ready to spend"].map String.toList

/-- The urgency-indicator keywords (+15). -/
def urgencySignals : List (List Char) :=
  ["need soon", "launching", "deadline", "asap"].map String.toList

/-- The authority-indicator keywords (+15). -/
def authoritySignals : List (List Char) :=
  ["business owner", "decision maker", "can decide", "my company"].map String.toList

/-- The specific-requirement keywords (+10). -/
def requirementSignals : List (List Char) :=
  ["need features", "must have", "requirements", "specifications"].map String.toList

/-- `calculateLeadScore(message, conversation)` (the `conversation`
parameter is unused by the source body): base 50, fixed adjustments per
keyword category, clamped by `Math.min(100, Math.max(0, score))`. -/
def calculateLeadScore (message : List Char) : Int :=
  let score : Int := 50
  let lowerMessage := lower message
  let score :=
    if budgetSignals.any (fun k => containsSub lowerMessage k) then score + 20 else score
  let score :=
    if urgencySignals.any (fun k => containsSub lowerMessage k) then score + 15 else score
  let score :=
    if authoritySignals.any (fun k => containsSub lowerMessage k) then score + 15 else score
  let score :=
    if requirementSignals.any (fun k => containsSub lowerMessage k) then score + 10 else score
  let score :=
    if containsSub lowerMessage "ecommerce".toList ||
        containsSub lowerMessage "online store".toList then score + 10 else score
  let score :=
    if containsSub lowerMessage "simple".toList ||
        containsSub lowerMessage "basic".toList then score - 5 else score
  min 100 (max 0 score)

/-- The buying-signal labels of `detectBuyingSignals`. -/
inductive BuySignal where
  | ready_to_start
  | budget_approved
  | timeline_urgency
  | comparing_options
  | decision_authority
  deriving DecidableEq

/-- The keyword table of `detectBuyingSignals`, in object-entry order. -/
def buyingKeywords : List (BuySignal × List (List Char)) :=
  [(.ready_to_start, ["ready to start", "when can we begin", "next steps"].map String.toList),
   (.budget_approved, ["budget approved", "have funding", "ready to invest"].map String.toList),
   (.timeline_urgency, ["need asap", "launching soon", "deadline"].map String.toList),
   (.comparing_options, ["comparing", "other quotes", "deciding between"].map String.toList),
   (.decision_authority, ["can decide", "business owner", "final decision"].map String.toList)]

/-- `detectBuyingSignals(message)` on an already-lowercased message. -/
def detectBuyingSignals (message : List Char) : List BuySignal :=
  (buyingKeywords.filter (fun e => e.2.any (fun k => containsSub message k))).map Prod.fst

/-- The project-type labels of `identifyUpsellOpportunities`. -/
inductive UpsellProject where
  | basic_website
  | ecommerce
  | existing_site
  deriving DecidableEq

/-- The upsell table, in object-entry order: mention keywords and the
suggested upsell names. -/
def upsellMap : List (UpsellProject × List (List Char) × List (List Char)) :=
  [(.basic_website,
    ["simple site", "basic website", "one page"].map String.toList,
    ["seo_optimization", "maintenance_plan", "analytics_setup"].map String.toList),
   (.ecommerce,
    ["online store", "sell products", "ecommerce"].map String.toList,
    ["payment_gateways", "inventory_management", "marketing_automation"].map String.toList),
   (.existing_site,
    ["current site", "existing website", "my site"].map String.toList,
    ["redesign", "performance_optimization", "mobile_optimization"].map String.toList)]

/-- `identifyUpsellOpportunities(message)` on a lowercased message. -/
def identifyUpsellOpportunities (message : List Char) :
    List (UpsellProject × List (List Char)) :=
  (upsellMap.filter (fun e => e.2.1.any (fun k => containsSub message k))).map
    (fun e => (e.1, e.2.2))

/-- The competitor labels of `detectCompetitorMentions`. -/
inductive Competitor where
  | wix
  | squarespace
  | wordpress
  | shopify
  | webflow
  | local_agency
  deriving DecidableEq

/-- The competitor table, in object-entry order. -/
def competitors : List (Competitor × List (List Char)) :=
  [(.wix, ["wix", "wix.com"].map String.toList),
   (.squarespace, ["squarespace", "square space"].map String.toList),
   (.wordpress, ["wordpress", "wp"].map String.toList),
   (.shopify, ["shopify"].map String.toList),
   (.webflow, ["webflow"].map String.toList),
   (.local_agency, ["other developer", "another company", "local agency"].map String.toList)]

/-- `detectCompetitorMentions(message)` on a lowercased message. -/
def detectCompetitorMentions (message : List Char) : List Competitor :=
  (competitors.filter (fun e => e.2.any (fun k => containsSub message k))).map Prod.fst

/-- The recommendation action labels. -/
inductive RecAction where
  | priority_follow_up
  | warm_follow_up
  | nurture_sequence
  | send_contract
  | competitive_differentiation
  deriving DecidableEq

/-- The recommendation timing labels. -/
inductive RecTiming where
  | within_2_hours
  | within_24_hours
  | weekly_follow_up
  | immediate
  | within_4_hours
  deriving DecidableEq

/-- One recommendation entry (its free-text `message` is omitted). -/
structure Recommendation where
  action : RecAction
  timing : RecTiming
  deriving DecidableEq

/-- `generateRecommendations(score, buyingSignals)`. -/
def generateRecommendations (score : Int) (buyingSignals : List BuySignal) :
    List Recommendation :=
  let recommendations : List Recommendation := []
  let recommendations :=
    if score > 80 then recommendations ++ [⟨.priority_follow_up, .within_2_hours⟩]
    else if score > 60 then recommendations ++ [⟨.warm_follow_up, .within_24_hours⟩]
    else if score > 40 then recommendations ++ [⟨.nurture_sequence, .weekly_follow_up⟩]
    else recommendations
  let recommendations :=
    if buyingSignals.contains .ready_to_start then
      recommendations ++ [⟨.send_contract, .immediate⟩]
    else recommendations
  if buyingSignals.contains .comparing_options then
    recommendations ++ [⟨.competitive_differentiation, .within_4_hours⟩]
  else recommendations

/-- The record returned by `analyzeOpportunity`. -/
structure Opportunity where
  qualificationScore : Int
  buyingSignals : List BuySignal
  upsellOpportunities : List (UpsellProject × List (List Char))
  competitorMentions : List Competitor
  shouldEngage : Bool
  recommendations : List Recommendation
  deriving DecidableEq

/-- `analyzeOpportunity(message, conversation)` (the conversation is
unused except by being forwarded to `calculateLeadScore`, which ignores
it). -/
def analyzeOpportunity (message : List Char) : Opportunity :=
  let lowerMessage := lower message
  let qualificationScore := calculateLeadScore message
  { qualificationScore := qualificationScore
    buyingSignals := detectBuyingSignals lowerMessage
    upsellOpportunities := identifyUpsellOpportunities lowerMessage
    competitorMentions := detectCompetitorMentions lowerMessage
    shouldEngage := decide (qualificationScore > 70)
    recommendations :=
      generateRecommendations qualificationScore (detectBuyingSignals lowerMessage) }

end Sales

/-! ## `CoordinatorAgent` -/

namespace Coord

open Chat

/-- The classification labels of `classifyMessage`. -/
inductive MessageType where
  | contact_collection_flow
  | pricing_inquiry
  | service_inquiry
  | escalation_required
  | urgency_assessment
  | initial_inquiry
  | general_inquiry
  deriving DecidableEq

/-- The conversation fields read by `classifyMessage`. -/
structure Conversation where
  messageCount : Nat := 0
  contact_collection_stage : Option (List Char) := none
  deriving DecidableEq

/-- `isPricingInquiry(message)` on a lowercased message. -/
def isPricingInquiry (message : List Char) : Bool :=
  (["cost", "price", "budget", "how much", "rate", "hourly", "quote"].map String.toList).any
    (fun k => containsSub message k)

/-- `isServiceInquiry(message)`. -/
def isServiceInquiry (message : List Char) : Bool :=
  (["do you do", "can you", "services", "what do you offer", "capabilities"].map
    String.toList).any (fun k => containsSub message k)

/-- `isEscalationRequired(message)` — note the keyword list differs
from the receptionist's triggers. -/
def isEscalationRequired (message : List Char) : Bool :=
  (["existing site", "modify my current", "update my website",
    "add to my site", "crypto payment", "specific functionality",
    "how would you implement", "technical question"].map String.toList).any
    (fun k => containsSub message k)

/-- `isUrgencyAssessment(message)`. -/
def isUrgencyAssessment (message : List Char) : Bool :=
  (["right now", "immediately", "later", "callback", "schedule"].map String.toList).any
    (fun k => containsSub message k)

/-- `classifyMessage(message, conversation)`: contact-collection flow
first, then pricing, service, escalation, urgency, first-message,
general — in that order. -/
def classifyMessage (message : List Char) (conversation : Conversation) : MessageType :=
  let lowerMessage := lower message
  let messageCount := conversation.messageCount
  let currentStage := conversation.contact_collection_stage
  if (match currentStage with
      | some st => !(st == "complete".toList)
      | none => false) then .contact_collection_flow
  else if isPricingInquiry lowerMessage then .pricing_inquiry
  else if isServiceInquiry lowerMessage then .service_inquiry
  else if isEscalationRequired lowerMessage then .escalation_required
  else if isUrgencyAssessment lowerMessage then .urgency_assessment
  else if messageCount == 0 then .initial_inquiry
  else .general_inquiry

end Coord

/-! ## Helper lemmas -/

namespace Chat

/-- `find?` skips a prefix in which nothing matches. -/
theorem find_append_of_none {α : Type} (p : α → Bool) (l l2 : List α)
    (h : l.find? p = none) : (l ++ l2).find? p = l2.find? p := by
  induction l with
  | nil => rfl
  | cons a l ih =>
    simp only [List.find?] at h ⊢
    cases hpa : p a with
    | true => simp [hpa] at h
    | false => simp only [hpa] at h ⊢; exact ih h

/-- Looking up a key right after appending its binding to a map in
which it was absent finds that binding. -/
theorem storeGet_append_self (st : Store) (k : List Char) (s : Session)
    (h : storeGet st k = none) : storeGet (st ++ [(k, s)]) k = some s := by
  unfold storeGet at h ⊢
  cases hf : st.find? (fun p => p.1 == k) with
  | some v => rw [hf] at h; simp at h
  | none =>
    rw [find_append_of_none _ _ _ hf]
    simp [List.find?]

theorem countRun_le_length (p : Char → Bool) (s : List Char) :
    countRun p s ≤ s.length := by
  induction s with
  | nil => simp [countRun]
  | cons c rest ih =>
    simp only [countRun, List.length_cons]
    split <;> omega

theorem countRun_eq_length_iff (p : Char → Bool) (s : List Char) :
    countRun p s = s.length ↔ s.all p = true := by
  induction s with
  | nil => simp [countRun]
  | cons c rest ih =>
    simp only [countRun, List.all_cons, List.length_cons, Bool.and_eq_true]
    constructor
    · intro h
      split at h
      · exact ⟨by assumption, ih.mp (by omega)⟩
      · have := countRun_le_length p rest; omega
    · rintro ⟨h1, h2⟩
      simp [h1, ih.mpr h2]

theorem firstSome_isSome {α : Type} (f : Nat → Option α) (l : List Nat) :
    (firstSome f l).isSome = l.any (fun n => (f n).isSome) := by
  induction l with
  | nil => rfl
  | cons n ns ih =>
    simp only [firstSome, List.any_cons]
    cases h : f n <;> simp [h, ih]

theorem mem_repCounts (lo top n : Nat) :
    n ∈ repCounts lo top ↔ lo ≤ n ∧ n ≤ top := by
  simp only [repCounts, List.mem_map, List.mem_range]
  constructor
  · rintro ⟨i, hi, rfl⟩; omega
  · rintro ⟨h1, h2⟩; exact ⟨top - n, by omega, by omega⟩

theorem reTestAnchored_classPlus (p : Char → Bool) (s : List Char) :
    reTestAnchored (Re.seq (Re.reps p 1 none) Re.eos) s = (!s.isEmpty && s.all p) := by
  unfold reTestAnchored matchHere
  simp only [mtry, Option.getD_none, Nat.min_self]
  split
  · next h =>
    have hle := countRun_le_length p s
    cases s with
    | nil => simp
    | cons c rest =>
      simp only [List.isEmpty_cons, Bool.not_false, Bool.true_and, Option.isSome_none]
      rw [eq_comm, ← Bool.not_eq_true, ← countRun_eq_length_iff]
      simp only [List.length_cons]
      omega
  · next h =>
    rw [firstSome_isSome]
    have hle := countRun_le_length p s
    cases hall : (!s.isEmpty && s.all p) with
    | true =>
      simp only [Bool.and_eq_true, Bool.not_eq_true'] at hall
      have hlen : countRun p s = s.length := (countRun_eq_length_iff p s).mpr hall.2
      rw [List.any_eq_true]
      refine ⟨s.length, ?_, ?_⟩
      · rw [mem_repCounts]
        constructor
        · cases s with
          | nil => simp at hall
          | cons c rest => simp
        · omega
      · simp [List.drop_length]
    | false =>
      rw [← Bool.not_eq_true, List.any_eq_true]
      push_neg
      intro n hn
      rw [mem_repCounts] at hn
      have hlt : countRun p s < s.length := by
        rcases Nat.lt_or_ge (countRun p s) s.length with h1 | h1
        · exact h1
        · exfalso
          have h2 : countRun p s = s.length := by omega
          rw [countRun_eq_length_iff] at h2
          cases s with
          | nil => simp [countRun] at h
          | cons c rest => simp [h2] at hall
      cases hd : s.drop n with
      | nil =>
        have := List.drop_eq_nil_iff.mp hd
        omega
      | cons d ds => simp [hd]

end Chat

/-! ## Claim theorems -/

/-- C7: a request body without a `message` field is rejected with a 400
client error and the session store is returned unchanged — no session
is created or looked up, no message appended, no flag or `leadInfo`
field modified. -/
theorem chat_badRequest_no_mutation (ai : Bool) (body : Chat.ChatBody)
    (st : Chat.Store) (h : body.message = none) :
    Minimal.handleChat ai body st = (st, Chat.HttpOut.badRequest) := by
  unfold Minimal.handleChat
  rw [h]

/-- Witness for C7 at a concrete empty store and bodiless request. -/
theorem chat_badRequest_no_mutation_witness :
    Minimal.handleChat true { message := none } [] = ([], Chat.HttpOut.badRequest) :=
  chat_badRequest_no_mutation true { message := none } [] rfl

/-- C8: `getSession` is idempotent — a second call with the store
produced by the first returns the same session and leaves the store
unchanged — and `extractLeadInfo` is a pure function of its input, so
two calls on the same string give the same result with no side effect. -/
theorem getSession_idempotent_extract_pure :
    (∀ (st : Chat.Store) (sid : List Char),
      Chat.getSession (Chat.getSession st sid).2 sid = Chat.getSession st sid) ∧
    (∀ m : List Char, Chat.extractLeadInfo m = Chat.extractLeadInfo m) := by
  constructor
  · intro st sid
    unfold Chat.getSession
    cases h : Chat.storeGet st sid with
    | some s => simp [h]
    | none => simp [h, Chat.storeGet_append_self st sid _ h]
  · intro m
    rfl

namespace Chat

theorem find_isSome_of_any {α : Type} (p : α → Bool) (l : List α)
    (h : l.any p = true) : (l.find? p).isSome = true := by
  induction l with
  | nil => simp at h
  | cons a l ih =>
    simp only [List.any_cons, Bool.or_eq_true] at h
    simp only [List.find?]
    cases hpa : p a with
    | true => rfl
    | false =>
      rcases h with h | h
      · rw [hpa] at h; exact absurd h (by simp)
      · exact ih h

end Chat

/-- C5 counterexample. -/
theorem validateName_single_char_rejected :
    Recep.validateName ("X".toList) = false ∧
    Chat.jsTrim ("X".toList) ≠ [] ∧ ("X".toList).all Char.isDigit = false := by
  decide

/-- C5 amended. -/
theorem validateName_rule :
    (∀ m : List Char,
      Recep.validateName m = true ↔
        (2 ≤ (Chat.jsTrim m).length ∧ ¬(m.all Char.isDigit = true))) ∧
    (∀ (m : List Char) (conv : Recep.Conversation),
      conv.contactCollectionStage = some ("collect_name".toList) →
      Recep.validateName m = false →
      Recep.handleContactCollection m conv =
        some { message := Recep.CMessage.didntCatchName,
               action := Recep.CAction.collect_contact_info,
               nextStep := some Recep.CStage.collect_name,
               retry := true }) := by
  constructor
  · intro m
    unfold Recep.validateName
    unfold Chat.digitLineRe
    rw [Chat.reTestAnchored_classPlus]
    by_cases hm : m = []
    · subst hm
      simp [Chat.jsTrim]
    · have hne : m.isEmpty = false := by
        cases m with
        | nil => exact absurd rfl hm
        | cons c r => rfl
      simp only [hne, Bool.not_false, Bool.true_and, Bool.and_eq_true,
        decide_eq_true_eq, Bool.not_eq_true']
      constructor
      · rintro ⟨h1, h2⟩
        exact ⟨by omega, by simp [h2]⟩
      · rintro ⟨h1, h2⟩
        exact ⟨by omega, by simp [h2]⟩
  · intro m conv hstage hval
    unfold Recep.handleContactCollection Recep.decodeStage
    rw [hstage]
    simp [hval]

/-- C5 witness. -/
theorem validateName_rule_witness :
    Recep.validateName ("Jo".toList) = true ∧
    Recep.handleContactCollection ("1".toList)
      { contactCollectionStage := some ("collect_name".toList) } =
      some { message := Recep.CMessage.didntCatchName,
             action := Recep.CAction.collect_contact_info,
             nextStep := some Recep.CStage.collect_name,
             retry := true } :=
  ⟨(validateName_rule.1 ("Jo".toList)).mpr ⟨by decide, by decide⟩,
   validateName_rule.2 ("1".toList) _ rfl (by decide)⟩

/-- C2 counterexample. -/
theorem coordinator_pricing_beats_escalation :
    Coord.isEscalationRequired (Chat.lower ("price to modify my current site".toList)) = true ∧
    Coord.classifyMessage ("price to modify my current site".toList) {} ≠
      Coord.MessageType.escalation_required := by
  decide

/-- C2 amended. -/
theorem escalation_priority :
    (∀ (m : List Char) (conv : Recep.Conversation),
      Recep.escalationTriggers.any (fun t => Chat.containsSub (Chat.lower m) t) = true →
      (Recep.analyzeMessage m conv).requiresEscalation = true ∧
      (Recep.analyzeMessage m conv).inquiryType = Recep.InquiryType.escalation) ∧
    (∀ (m : List Char) (conv : Coord.Conversation),
      conv.contact_collection_stage = none →
      Coord.isPricingInquiry (Chat.lower m) = false →
      Coord.isServiceInquiry (Chat.lower m) = false →
      Coord.isEscalationRequired (Chat.lower m) = true →
      Coord.classifyMessage m conv = Coord.MessageType.escalation_required) := by
  constructor
  · intro m conv h
    have hf := Chat.find_isSome_of_any _ _ h
    simp only [Recep.analyzeMessage]
    cases hfind : Recep.escalationTriggers.find? (fun t => Chat.containsSub (Chat.lower m) t) with
    | some t => exact ⟨rfl, rfl⟩
    | none => rw [hfind] at hf; simp at hf
  · intro m conv hstage hp hs hesc
    simp only [Coord.classifyMessage]
    rw [hstage]
    simp [hp, hs, hesc]

/-- C2 witness. -/
theorem escalation_priority_witness :
    (Recep.analyzeMessage ("please modify my current site".toList) {}).requiresEscalation = true ∧
    Coord.classifyMessage ("please modify my current site".toList) {} =
      Coord.MessageType.escalation_required :=
  ⟨(escalation_priority.1 _ {} (by decide)).1,
   escalation_priority.2 _ {} rfl (by decide) (by decide) (by decide)⟩

/-- C6. -/
theorem leadScore_formula (m : List Char) :
    Sales.calculateLeadScore m =
      min 100 (max 0 ((50 : Int)
        + (if Sales.budgetSignals.any (fun k => Chat.containsSub (Chat.lower m) k) then 20 else 0)
        + (if Sales.urgencySignals.any (fun k => Chat.containsSub (Chat.lower m) k) then 15 else 0)
        + (if Sales.authoritySignals.any (fun k => Chat.containsSub (Chat.lower m) k) then 15 else 0)
        + (if Sales.requirementSignals.any (fun k => Chat.containsSub (Chat.lower m) k) then 10 else 0)
        + (if Chat.containsSub (Chat.lower m) ("ecommerce".toList) ||
              Chat.containsSub (Chat.lower m) ("online store".toList) then 10 else 0)
        - (if Chat.containsSub (Chat.lower m) ("simple".toList) ||
              Chat.containsSub (Chat.lower m) ("basic".toList) then 5 else 0))) ∧
    ((Sales.analyzeOpportunity m).shouldEngage = true ↔ 70 < Sales.calculateLeadScore m) := by
  constructor
  · simp only [Sales.calculateLeadScore]
    split_ifs <;> norm_num
  · simp only [Sales.analyzeOpportunity, decide_eq_true_eq]

/-- C9. -/
theorem extract_hasContact_iff (m : List Char) :
    (Chat.extractLeadInfo m).hasContact = true ↔
      ((Chat.extractLeadInfo m).name.isSome = true ∨
       (Chat.extractLeadInfo m).email.isSome = true ∨
       (Chat.extractLeadInfo m).phone.isSome = true) := by
  simp only [Chat.extractLeadInfo]
  cases he : Chat.reFind Chat.emailRe m <;>
    cases hp : Chat.reFind Chat.phoneRe m <;>
      cases hn : Chat.firstNameMatch m <;>
        simp only [Chat.commaNameFallback, Chat.standaloneNameFallback, Chat.otruthy] <;>
          split_ifs <;> simp_all

/-- C10. -/
theorem mergeLead_spread (ai : Bool) (m : List Char) (s : Chat.Session)
    (hb : s.hasMadeBusinessInquiry = true) (hc : s.leadCollected = false)
    (hx : (Chat.extractLeadInfo m).hasContact = true) :
    (P3.chatStep ai m s).1.leadInfo = Chat.mergeLead s.leadInfo (Chat.extractLeadInfo m) ∧
    (∀ (li : Chat.LeadInfo) (r : Chat.ExtractResult),
      (∀ v, r.name = some v → (Chat.mergeLead li r).name = some v) ∧
      (r.name = none → (Chat.mergeLead li r).name = li.name) ∧
      (∀ v, r.email = some v → (Chat.mergeLead li r).email = some v) ∧
      (r.email = none → (Chat.mergeLead li r).email = li.email) ∧
      (∀ v, r.phone = some v → (Chat.mergeLead li r).phone = some v) ∧
      (r.phone = none → (Chat.mergeLead li r).phone = li.phone) ∧
      (Chat.mergeLead li r).inquiry = li.inquiry ∧
      (Chat.mergeLead li r).hasContact = some r.hasContact) := by
  constructor
  · simp only [P3.chatStep, Chat.extractBranch, hb, hc, hx, Bool.not_false, Bool.and_self,
      if_true]
    split_ifs <;> rfl
  · intro li r
    refine ⟨fun v h => by simp [Chat.mergeLead, h], fun h => by simp [Chat.mergeLead, h],
            fun v h => by simp [Chat.mergeLead, h], fun h => by simp [Chat.mergeLead, h],
            fun v h => by simp [Chat.mergeLead, h], fun h => by simp [Chat.mergeLead, h],
            rfl, rfl⟩

/-- C10 witness. -/
theorem mergeLead_spread_witness :
    (P3.chatStep false ("my name is Bob, bob@example.com".toList)
        { Chat.initSession ("default".toList) with hasMadeBusinessInquiry := true }).1.leadInfo =
      Chat.mergeLead
        ({ Chat.initSession ("default".toList) with hasMadeBusinessInquiry := true } :
          Chat.Session).leadInfo
        (Chat.extractLeadInfo ("my name is Bob, bob@example.com".toList)) :=
  (mergeLead_spread false ("my name is Bob, bob@example.com".toList)
    { Chat.initSession ("default".toList) with hasMadeBusinessInquiry := true }
    rfl rfl (by decide)).1

namespace Chat

theorem firstSome_eq_some {α : Type} (f : Nat → Option α) (l : List Nat) (a : α)
    (h : firstSome f l = some a) : ∃ n ∈ l, f n = some a := by
  induction l with
  | nil => simp [firstSome] at h
  | cons n ns ih =>
    simp only [firstSome] at h
    cases hf : f n with
    | some b =>
      rw [hf] at h
      exact ⟨n, by simp, by rw [hf]; exact h⟩
    | none =>
      rw [hf] at h
      obtain ⟨x, hx, hfx⟩ := ih h
      exact ⟨x, by simp [hx], hfx⟩

/-- A successful continuation-passing match hands the continuation a
suffix shorter by at least `minConsume`. -/
theorem mtry_consume {α : Type} (r : Re) (s : List Char)
    (k : List Char → Caps → Option α) (caps : Caps) (a : α)
    (h : mtry r s k caps = some a) :
    ∃ s2 caps2, k s2 caps2 = some a ∧ s2.length + minConsume r ≤ s.length := by
  induction r generalizing s k caps with
  | eps => exact ⟨s, caps, h, by simp [minConsume]⟩
  | cls p =>
    cases s with
    | nil => simp [mtry] at h
    | cons c rest =>
      simp only [mtry] at h
      split at h
      · exact ⟨rest, caps, h, by simp [minConsume]⟩
      · simp at h
  | seq a b iha ihb =>
    simp only [mtry] at h
    obtain ⟨s2, c2, hk, hlen⟩ := iha s _ caps h
    obtain ⟨s3, c3, hk3, hlen3⟩ := ihb s2 k c2 hk
    refine ⟨s3, c3, hk3, ?_⟩
    simp only [minConsume]
    omega
  | alt a b iha ihb =>
    simp only [mtry] at h
    cases hA : mtry a s k caps with
    | some res =>
      rw [hA] at h
      injection h with h
      subst h
      obtain ⟨s2, c2, hk, hlen⟩ := iha s k caps hA
      refine ⟨s2, c2, hk, ?_⟩
      simp only [minConsume]
      omega
    | none =>
      rw [hA] at h
      obtain ⟨s2, c2, hk, hlen⟩ := ihb s k caps h
      refine ⟨s2, c2, hk, ?_⟩
      simp only [minConsume]
      omega
  | grp i r ihr =>
    simp only [mtry] at h
    obtain ⟨s2, c2, hk, hlen⟩ := ihr s _ caps h
    exact ⟨s2, _, hk, by simpa [minConsume] using hlen⟩
  | reps p lo hi =>
    simp only [mtry] at h
    have hr := countRun_le_length p s
    have htop : min (hi.getD (countRun p s)) (countRun p s) ≤ countRun p s :=
      Nat.min_le_right _ _
    split at h
    · simp at h
    · obtain ⟨n, hn, hfn⟩ := firstSome_eq_some _ _ _ h
      rw [mem_repCounts] at hn
      refine ⟨s.drop n, caps, hfn, ?_⟩
      simp only [minConsume, List.length_drop]
      omega
  | eos =>
    cases s with
    | nil => exact ⟨[], caps, h, by simp [minConsume]⟩
    | cons c rest => simp [mtry] at h

/-- A successful anchored match consumes at least `minConsume r`. -/
theorem matchHere_length (r : Re) (s : List Char) (m : List Char) (caps : Caps)
    (h : matchHere r s = some (m, caps)) : minConsume r ≤ m.length := by
  obtain ⟨s2, c2, hk, hlen⟩ := mtry_consume r s _ [] _ h
  injection hk with hk
  have hm : m = s.take (s.length - s2.length) := by
    have := congrArg Prod.fst hk
    simpa using this.symm
  subst hm
  rw [List.length_take]
  omega

/-- A successful unanchored match consumes at least `minConsume r`. -/
theorem reFind_length (r : Re) (s : List Char) (m : List Char) (caps : Caps)
    (h : reFind r s = some (m, caps)) : minConsume r ≤ m.length := by
  induction s with
  | nil => exact matchHere_length r [] m caps h
  | cons c rest ih =>
    simp only [reFind] at h
    cases hm : matchHere r (c :: rest) with
    | some res =>
      rw [hm] at h
      injection h with h
      subst h
      exact matchHere_length r (c :: rest) m caps hm
    | none =>
      rw [hm] at h
      exact ih h

end Chat

namespace Chat

theorem extract_email (m : List Char) :
    (extractLeadInfo m).email = (reFind emailRe m).map (fun e => e.1) := by
  simp only [extractLeadInfo]
  cases he : reFind emailRe m <;>
    cases hp : reFind phoneRe m <;>
      cases hn : firstNameMatch m <;>
        simp only [commaNameFallback, standaloneNameFallback, Option.map] <;>
          split_ifs <;> rfl

theorem extract_phone (m : List Char) :
    (extractLeadInfo m).phone = (reFind phoneRe m).map (fun e => e.1) := by
  simp only [extractLeadInfo]
  cases he : reFind emailRe m <;>
    cases hp : reFind phoneRe m <;>
      cases hn : firstNameMatch m <;>
        simp only [commaNameFallback, standaloneNameFallback, Option.map] <;>
          split_ifs <;> rfl

theorem extract_email_ne_nil (m v : List Char)
    (h : (extractLeadInfo m).email = some v) : v ≠ [] := by
  rw [extract_email] at h
  cases hre : reFind emailRe m with
  | none => rw [hre] at h; simp at h
  | some e =>
    rw [hre] at h
    simp only [Option.map_some'] at h
    obtain ⟨em, caps⟩ := e
    have hlen := reFind_length emailRe m em caps hre
    have hmc : minConsume emailRe = 6 := rfl
    simp only at h
    injection h with h
    intro hv
    rw [h, hv, hmc] at hlen
    simp at hlen

theorem extract_phone_ne_nil (m v : List Char)
    (h : (extractLeadInfo m).phone = some v) : v ≠ [] := by
  rw [extract_phone] at h
  cases hre : reFind phoneRe m with
  | none => rw [hre] at h; simp at h
  | some e =>
    rw [hre] at h
    simp only [Option.map_some'] at h
    obtain ⟨pm, caps⟩ := e
    have hlen := reFind_length phoneRe m pm caps hre
    have hmc : minConsume phoneRe = 10 := rfl
    simp only at h
    injection h with h
    intro hv
    rw [h, hv, hmc] at hlen
    simp at hlen

theorem mergeLead_good (li : LeadInfo) (m : List Char)
    (h : goodLead li) (hn : otruthy (extractLeadInfo m).name = true) :
    goodLead (mergeLead li (extractLeadInfo m)) := by
  obtain ⟨h1, h2⟩ := h
  constructor
  · cases hx : (extractLeadInfo m).name with
    | none => simpa [mergeLead, hx] using h1
    | some v => rw [hx] at hn; simpa [mergeLead, hx] using hn
  · rcases h2 with h2 | h2
    · left
      cases hx : (extractLeadInfo m).email with
      | none => simpa [mergeLead, hx] using h2
      | some v =>
        have hne := extract_email_ne_nil m v hx
        simp [mergeLead, hx, otruthy]
        cases v with
        | nil => exact absurd rfl hne
        | cons c r => simp
    · right
      cases hx : (extractLeadInfo m).phone with
      | none => simpa [mergeLead, hx] using h2
      | some v =>
        have hne := extract_phone_ne_nil m v hx
        simp [mergeLead, hx, otruthy]
        cases v with
        | nil => exact absurd rfl hne
        | cons c r => simp

end Chat

namespace P3

open Chat

theorem fbBiz_fields (m : List Char) (s : Session) :
    (fbBiz m s).1.leadCollected = s.leadCollected ∧
    (s.hasMadeBusinessInquiry = true → (fbBiz m s).1.hasMadeBusinessInquiry = true) ∧
    (goodLead s.leadInfo → goodLead (fbBiz m s).1.leadInfo) := by
  simp only [fbBiz]
  cases hb : isBusinessInquiry m <;>
    simp only [hb, Bool.false_and, Bool.true_and] <;>
      split_ifs <;> simp [goodLead]

theorem fbCollect_fields (m : List Char) (s : Session) :
    (fbCollect m s).1.leadCollected = s.leadCollected ∧
    (s.hasMadeBusinessInquiry = true → (fbCollect m s).1.hasMadeBusinessInquiry = true) ∧
    (goodLead s.leadInfo → goodLead (fbCollect m s).1.leadInfo) := by
  simp only [fbCollect]
  split_ifs <;> first
    | exact fbBiz_fields m s
    | simp [goodLead]

theorem fbSpam_fields (m : List Char) (s : Session) :
    (fbSpam m s).1.leadCollected = s.leadCollected ∧
    (s.hasMadeBusinessInquiry = true → (fbSpam m s).1.hasMadeBusinessInquiry = true) ∧
    (goodLead s.leadInfo → goodLead (fbSpam m s).1.leadInfo) := by
  simp only [fbSpam]
  split_ifs <;> first
    | exact fbCollect_fields m _
    | simp [goodLead]

theorem fb_fields (m : List Char) (s : Session) :
    (getIntelligentFallback m s).1.leadCollected = s.leadCollected ∧
    (s.hasMadeBusinessInquiry = true →
      (getIntelligentFallback m s).1.hasMadeBusinessInquiry = true) ∧
    (goodLead s.leadInfo → goodLead (getIntelligentFallback m s).1.leadInfo) := by
  simp only [getIntelligentFallback]
  split_ifs with h1 h2 h3 h4 h5 <;> first
    | exact fbSpam_fields m s
    | (refine ⟨rfl, fun h => h, fun h => ?_⟩
       simp only [Bool.and_eq_true] at h3
       exact mergeLead_good _ _ h h3.2)
    | simp [goodLead]

theorem afterExtract_fields (ai : Bool) (m : List Char) (s : Session) :
    (afterExtract ai m s).1.leadCollected = s.leadCollected ∧
    (s.hasMadeBusinessInquiry = true →
      (afterExtract ai m s).1.hasMadeBusinessInquiry = true) ∧
    (goodLead s.leadInfo → goodLead (afterExtract ai m s).1.leadInfo) := by
  simp only [afterExtract]
  split_ifs <;> first
    | exact fb_fields m _
    | (exact ⟨(fb_fields m _).1, fun _ => (fb_fields m _).2.1 rfl,
              fun h => (fb_fields m _).2.2 h⟩)
    | simp [goodLead]

end P3

namespace P3

open Chat

theorem chatStep_inv (ai : Bool) (m : List Char) (s : Session)
    (h1 : s.leadCollected = true → s.hasMadeBusinessInquiry = true)
    (h2 : s.leadCollected = true → goodLead s.leadInfo) :
    ((chatStep ai m s).1.leadCollected = true →
      (chatStep ai m s).1.hasMadeBusinessInquiry = true) ∧
    ((chatStep ai m s).1.leadCollected = true →
      goodLead (chatStep ai m s).1.leadInfo) := by
  simp only [chatStep]
  split_ifs with hc hx
  · simp only [Chat.extractBranch]
    have hlc : s.leadCollected = false := by
      simp only [Bool.and_eq_true, Bool.not_eq_true'] at hc
      exact hc.2
    have key : ∀ res : Session × Reply, res.1.leadCollected = s.leadCollected →
        ((res.1.leadCollected = true → res.1.hasMadeBusinessInquiry = true) ∧
         (res.1.leadCollected = true → goodLead res.1.leadInfo)) := by
      intro res hres
      constructor <;> intro hcol <;> rw [hres, hlc] at hcol <;>
        exact absurd hcol (by simp)
    split_ifs with hg
    · constructor
      · intro _
        simp only [Bool.and_eq_true] at hc
        exact hc.1
      · intro _
        simp only [Bool.and_eq_true, Bool.or_eq_true] at hg
        exact hg
    all_goals exact key _ rfl
  · refine ⟨fun hcol => ?_, fun hcol => ?_⟩
    · rw [(afterExtract_fields ai m _).1] at hcol
      exact (afterExtract_fields ai m _).2.1 (h1 hcol)
    · rw [(afterExtract_fields ai m _).1] at hcol
      exact (afterExtract_fields ai m _).2.2 (h2 hcol)
  · refine ⟨fun hcol => ?_, fun hcol => ?_⟩
    · rw [(afterExtract_fields ai m _).1] at hcol
      exact (afterExtract_fields ai m _).2.1 (h1 hcol)
    · rw [(afterExtract_fields ai m _).1] at hcol
      exact (afterExtract_fields ai m _).2.2 (h2 hcol)

theorem runChat_inv (tr : List (Bool × List Char)) (s : Session)
    (h1 : s.leadCollected = true → s.hasMadeBusinessInquiry = true)
    (h2 : s.leadCollected = true → goodLead s.leadInfo) :
    ((runChat tr s).leadCollected = true →
      (runChat tr s).hasMadeBusinessInquiry = true) ∧
    ((runChat tr s).leadCollected = true → goodLead (runChat tr s).leadInfo) := by
  induction tr generalizing s with
  | nil => exact ⟨h1, h2⟩
  | cons p rest ih =>
    obtain ⟨ai, m⟩ := p
    obtain ⟨g1, g2⟩ := chatStep_inv ai m s h1 h2
    exact ih _ g1 g2

end P3

/-- C3: in every session state reachable by running chat turns from a
fresh session, `leadCollected = true` implies that
`hasMadeBusinessInquiry` is already true; the flag is set only inside
the extraction branch, which is guarded by `hasMadeBusinessInquiry`,
and the latter never reverts. -/
theorem leadCollected_requires_inquiry (tr : List (Bool × List Char)) (sid : List Char)
    (h : (P3.runChat tr (Chat.initSession sid)).leadCollected = true) :
    (P3.runChat tr (Chat.initSession sid)).hasMadeBusinessInquiry = true :=
  (P3.runChat_inv tr (Chat.initSession sid)
    (fun hh => absurd hh (by simp [Chat.initSession]))
    (fun hh => absurd hh (by simp [Chat.initSession]))).1 h

/-- Witness for C3: a greeting, a business inquiry and a contact
message collect the lead, and the business-inquiry flag is set. -/
theorem leadCollected_requires_inquiry_witness :
    (P3.runChat [(false, "hi".toList), (false, "i need a website".toList),
        (false, "my name is Dana, dana@example.com".toList)]
      (Chat.initSession "default".toList)).hasMadeBusinessInquiry = true :=
  leadCollected_requires_inquiry _ ("default".toList) (by decide)

/-- C1 counterexample: one AI-failure turn from a fresh session leaves
a state with a non-empty name and email in `leadInfo` (merged by the
fallback responder) while `leadCollected` is still false, so the
biconditional fails at a reachable state. -/
theorem leadFlag_biconditional_fails :
    ¬ ((P3.chatStep false ("my name is John, john@example.com".toList)
          (Chat.initSession "default".toList)).1.leadCollected = true ↔
        (Chat.otruthy (P3.chatStep false ("my name is John, john@example.com".toList)
            (Chat.initSession "default".toList)).1.leadInfo.name = true ∧
         (Chat.otruthy (P3.chatStep false ("my name is John, john@example.com".toList)
             (Chat.initSession "default".toList)).1.leadInfo.email = true ∨
          Chat.otruthy (P3.chatStep false ("my name is John, john@example.com".toList)
              (Chat.initSession "default".toList)).1.leadInfo.phone = true))) := by
  decide

/-- C1 (amended): in every reachable state the forward implication
holds — `leadCollected = true` implies `leadInfo.name` is non-empty and
one of `leadInfo.email`/`leadInfo.phone` is non-empty; the converse is
refuted by `leadFlag_biconditional_fails`. -/
theorem leadCollected_implies_contact (tr : List (Bool × List Char)) (sid : List Char)
    (h : (P3.runChat tr (Chat.initSession sid)).leadCollected = true) :
    Chat.goodLead (P3.runChat tr (Chat.initSession sid)).leadInfo :=
  (P3.runChat_inv tr (Chat.initSession sid)
    (fun hh => absurd hh (by simp [Chat.initSession]))
    (fun hh => absurd hh (by simp [Chat.initSession]))).2 h

/-- Witness for C1: the collecting trace satisfies the implication's
conclusion. -/
theorem leadCollected_implies_contact_witness :
    Chat.goodLead (P3.runChat [(false, "hi".toList),
        (false, "i need a website".toList),
        (false, "my name is Dana, dana@example.com".toList)]
      (Chat.initSession "default".toList)).leadInfo :=
  leadCollected_implies_contact _ ("default".toList) (by decide)

namespace Minimal

open Chat

theorem fbCollect_state (m : List Char) (s : Session) : (fbCollect m s).1 = s := by
  simp only [fbCollect]
  split_ifs <;> rfl

theorem fb_spam_step (m : List Char) (s : Session) (h : isSpammy m = true) :
    getStateAwareFallbackResponse m s =
      ({ s with consecutiveNonBusiness := s.consecutiveNonBusiness + 1 },
       if s.consecutiveNonBusiness + 1 ≥ 4 then Reply.redirectTier3
       else if s.consecutiveNonBusiness + 1 ≥ 3 then Reply.redirectTier2
       else Reply.redirectTier1) := by
  simp only [getStateAwareFallbackResponse, h, Bool.true_or, if_true]
  split_ifs <;> rfl

theorem fb_reset (m : List Char) (s : Session) (h1 : isSpammy m = false)
    (h2 : isBusinessInquiry m = true) :
    (getStateAwareFallbackResponse m s).1.consecutiveNonBusiness = 0 := by
  simp only [getStateAwareFallbackResponse, h1, h2, Bool.false_or, Bool.not_true,
    Bool.false_and, if_true]
  rw [if_neg (show ¬ (false = true) by simp)]
  rw [fbCollect_state]

end Minimal

/-- C4 counterexample: four consecutive off-topic messages that match
no business keyword (and no spam indicator) never advance the
dismissiveness counter, so the 4th reply is the generic fallback, not
the most dismissive redirect. -/
theorem offTopic_counter_never_starts :
    Minimal.isBusinessInquiry ("blah".toList) = false ∧
    (Minimal.chatStep false ("blah".toList)
        (Minimal.runChat [(false, "blah".toList), (false, "blah".toList),
            (false, "blah".toList)]
          (Chat.initSession "default".toList))).2 = Chat.Reply.thanksForReachingOut ∧
    Chat.Reply.thanksForReachingOut ≠ Chat.Reply.redirectTier3 := by
  decide

/-- C4 (amended): for messages matching a spam indicator the counter
increments each turn, the 4th consecutive such message from a zero
counter gets the most dismissive tier-3 redirect, and after one
non-spammy business-relevant message the counter resets to zero so the
next spam-indicator message gets the tier-1 redirect. -/
theorem offTopic_redirect_tiers
    (m1 m2 m3 m4 mb m5 : List Char)
    (h1 : Minimal.isSpammy m1 = true) (h2 : Minimal.isSpammy m2 = true)
    (h3 : Minimal.isSpammy m3 = true) (h4 : Minimal.isSpammy m4 = true)
    (hb1 : Minimal.isSpammy mb = false) (hb2 : Minimal.isBusinessInquiry mb = true)
    (h5 : Minimal.isSpammy m5 = true)
    (s : Chat.Session) (hs : s.consecutiveNonBusiness = 0) :
    (Minimal.getStateAwareFallbackResponse m4
        (Minimal.getStateAwareFallbackResponse m3
            (Minimal.getStateAwareFallbackResponse m2
                (Minimal.getStateAwareFallbackResponse m1 s).1).1).1).2 =
      Chat.Reply.redirectTier3 ∧
    (Minimal.getStateAwareFallbackResponse m5
        (Minimal.getStateAwareFallbackResponse mb
            (Minimal.getStateAwareFallbackResponse m4
                (Minimal.getStateAwareFallbackResponse m3
                    (Minimal.getStateAwareFallbackResponse m2
                        (Minimal.getStateAwareFallbackResponse m1 s).1).1).1).1).1).2 =
      Chat.Reply.redirectTier1 := by
  simp only [Minimal.fb_spam_step _ _ h1, Minimal.fb_spam_step _ _ h2,
    Minimal.fb_spam_step _ _ h3, Minimal.fb_spam_step _ _ h4, hs]
  constructor
  · norm_num
  · simp only [Minimal.fb_spam_step _ _ h5]
    rw [Minimal.fb_reset mb _ hb1 hb2]
    norm_num

/-- Witness for C4 (amended) on concrete spam-indicator messages. -/
theorem offTopic_redirect_tiers_witness :
    (Minimal.getStateAwareFallbackResponse ("are you a bot".toList)
        (Minimal.getStateAwareFallbackResponse ("what time is it".toList)
            (Minimal.getStateAwareFallbackResponse ("are you a bot".toList)
                (Minimal.getStateAwareFallbackResponse ("i like you".toList)
                  (Chat.initSession "default".toList)).1).1).1).2 =
      Chat.Reply.redirectTier3 ∧
    (Minimal.getStateAwareFallbackResponse ("are you a bot".toList)
        (Minimal.getStateAwareFallbackResponse ("i need a website".toList)
            (Minimal.getStateAwareFallbackResponse ("are you a bot".toList)
                (Minimal.getStateAwareFallbackResponse ("what time is it".toList)
                    (Minimal.getStateAwareFallbackResponse ("are you a bot".toList)
                        (Minimal.getStateAwareFallbackResponse ("i like you".toList)
                          (Chat.initSession "default".toList)).1).1).1).1).1).2 =
      Chat.Reply.redirectTier1 :=
  offTopic_redirect_tiers ("i like you".toList) ("are you a bot".toList)
    ("what time is it".toList) ("are you a bot".toList) ("i need a website".toList)
    ("are you a bot".toList)
    (by decide) (by decide) (by decide) (by decide) (by decide) (by decide) (by decide)
    (Chat.initSession "default".toList) rfl
